import Mathlib

/-!
Shallow embedding of `node.go` from the riak-go-client repository: the
per-endpoint connection-pool manager (`Node`) with its lifecycle state
machine, start-up warm fill, connection checkout/checkin, command dispatch
and the shutdown drain.

Conventions of the embedding:
* Go `uint16` counters are `Nat` with explicit wraparound (`inc16`/`dec16`).
* A Go `*connection` (nullable pointer) is an `Option connection`.
* Fallible Go calls return `Option String` (`none` is a nil error).
* The mutexes guard in-function critical sections only; the sequential
  embedding executes each operation atomically, so they carry no content.
* The `panic` in `Node.shutdown` is modelled by returning `none` from an
  `Option`-valued result, which `Node.Stop` propagates.
* Collaborators that live outside `node.go` (the `connection`
  implementation, `newConnection`, network dialing, `CommandBuilder`) are
  modelled from the spec; see the doc comments on those definitions.
-/

/-- An opaque unit of work; the core only reads its name (Go `Command.Name()`). -/
structure Command where
  name : String

/-- Modelled from the spec: the `connection` implementation lives outside
`node.go`.  The spec's collaborator contract is `connect() → error`,
`execute(command) → error`, `notInFlight()`, `resetBuffer()`, `close() → error`.
`execResult` gives the outcome of `execute` for each command, `closeResult`
the outcome of `close`; `inFlight` and `bufferClean` are the bits touched by
`notInFlight` and `resetBuffer`. -/
structure connection where
  inFlight : Bool
  bufferClean : Bool
  execResult : Command → Option String
  closeResult : Option String

def connection.execute (c : connection) (cmd : Command) : Option String :=
  c.execResult cmd

def connection.close (c : connection) : Option String :=
  c.closeResult

def connection.notInFlight (c : connection) : connection :=
  { c with inFlight := false }

def connection.resetBuffer (c : connection) : connection :=
  { c with bufferClean := true }

/-- Closing through a Go `*connection`.  Closing a nil pointer is not defined
by `node.go` (the method body is elsewhere); the theorems below only drain
pools that are free of nil entries, so the `none` branch is never relied on. -/
def closeConnPtr : Option connection → Option String
  | some c => c.close
  | none => none

/-- Go `type state byte`; the `iota` constants below fix the numeric order
`ERROR = 0, CREATED = 1, RUNNING = 2, HEALTH_CHECKING = 3, SHUTTING_DOWN = 4,
SHUTDOWN = 5`, which is what `n.state < SHUTTING_DOWN` compares. -/
abbrev state : Type := Nat

def ERROR : state := 0

def CREATED : state := 1

def RUNNING : state := 2

def HEALTH_CHECKING : state := 3

def SHUTTING_DOWN : state := 4

def SHUTDOWN : state := 5

/-- Go `uint16` increment with wraparound (`n.currentNumConnections++`). -/
def inc16 (c : Nat) : Nat := (c + 1) % 65536

/-- Go `uint16` decrement with wraparound (`n.currentNumConnections--`). -/
def dec16 (c : Nat) : Nat := (c + 65535) % 65536

/-- Go `NodeOptions`.  Durations are abstracted to `Nat`; the
`CommandBuilder` collaborator (`Build() → Command`) is a function. -/
structure NodeOptions where
  RemoteAddress : String
  MinConnections : Nat
  MaxConnections : Nat
  IdleTimeout : Nat
  ConnectTimeout : Nat
  RequestTimeout : Nat
  HealthCheckBuilder : Option (Unit → Command)

/-- Modelled from the spec: the concrete default option values are defined
outside `node.go` ("each with a default applied when zero/absent"); only the
fact that zero/absent fields are replaced matters, and the theorems below
always pass explicit non-zero options. -/
def defaultRemoteAddress : String := "127.0.0.1:8087"

def defaultMinConnections : Nat := 1

def defaultMaxConnections : Nat := 256

def defaultIdleTimeout : Nat := 3

def defaultConnectTimeout : Nat := 30

def defaultRequestTimeout : Nat := 5

def defaultNodeOptions : NodeOptions :=
  { RemoteAddress := defaultRemoteAddress
    MinConnections := defaultMinConnections
    MaxConnections := defaultMaxConnections
    IdleTimeout := defaultIdleTimeout
    ConnectTimeout := defaultConnectTimeout
    RequestTimeout := defaultRequestTimeout
    HealthCheckBuilder := none }

/-- The zero-field default substitution performed at the top of `NewNode`. -/
def applyOptionDefaults (o : NodeOptions) : NodeOptions :=
  { RemoteAddress := if o.RemoteAddress = "" then defaultRemoteAddress else o.RemoteAddress
    MinConnections := if o.MinConnections = 0 then defaultMinConnections else o.MinConnections
    MaxConnections := if o.MaxConnections = 0 then defaultMaxConnections else o.MaxConnections
    IdleTimeout := if o.IdleTimeout = 0 then defaultIdleTimeout else o.IdleTimeout
    ConnectTimeout := if o.ConnectTimeout = 0 then defaultConnectTimeout else o.ConnectTimeout
    RequestTimeout := if o.RequestTimeout = 0 then defaultRequestTimeout else o.RequestTimeout
    HealthCheckBuilder := o.HealthCheckBuilder }

/-- Go `Node`.  The two mutexes are omitted (the sequential embedding makes
every operation atomic); every other field of the struct is carried over.
`addr` stands for the resolved `*net.TCPAddr`. -/
structure Node where
  addr : String
  minConnections : Nat
  maxConnections : Nat
  idleTimeout : Nat
  connectTimeout : Nat
  requestTimeout : Nat
  healthCheckBuilder : Option (Unit → Command)
  available : List (Option connection)
  currentNumConnections : Nat
  state : state

/-- Go `NewNode`.  `resolve` stands for `net.ResolveTCPAddr` (external);
`none` for `options` is a nil `*NodeOptions`.  Note that `available` is
built with `make([]*connection, options.MinConnections)` — a slice whose
LENGTH is `MinConnections`, every element the nil pointer — and that
`currentNumConnections` starts at its zero value `0`. -/
def NewNode (resolve : String → Option String) (options : Option NodeOptions) :
    Option Node :=
  let opts := applyOptionDefaults (options.getD defaultNodeOptions)
  match resolve opts.RemoteAddress with
  | some resolvedAddress =>
      some
        { addr := resolvedAddress
          minConnections := opts.MinConnections
          maxConnections := opts.MaxConnections
          idleTimeout := opts.IdleTimeout
          connectTimeout := opts.ConnectTimeout
          requestTimeout := opts.RequestTimeout
          healthCheckBuilder := opts.HealthCheckBuilder
          available := List.replicate opts.MinConnections none
          currentNumConnections := 0
          state := CREATED }
  | none => none

/-- Go `Node.setState`.  The parameter type is written `Nat` (which `state`
abbreviates) because inside the `Node` namespace the name `state` denotes
the field accessor. -/
def Node.setState (n : Node) (s : Nat) : Node :=
  { n with state := s }

/-- Go `Node.stateCheck`: `none` when the current state is in the allow-list,
otherwise the formatted illegal-state error (the message text, which names
the required and the actual states in Go, is abstracted to a constant). -/
def Node.stateCheck (n : Node) (allowed : List Nat) : Option String :=
  if n.state ∈ allowed then none
  else some "[Node]: Illegal State"

/-- Go `Node.getAvailableConnection`: pop the first element of `available`
if the slice is non-empty, else return the nil pointer.  The popped element
is itself a `*connection`, so it can be nil. -/
def Node.getAvailableConnection (n : Node) : Option connection × Node :=
  match n.available with
  | [] => (none, n)
  | c :: rest => (c, { n with available := rest })

/-- Go `Node.returnConnectionToPool` (the `shouldLock` parameter only guards
the mutex and is dropped).  For `state < SHUTTING_DOWN` the connection is
marked not in flight, its buffer reset, and it is appended to `available`;
otherwise the count is decremented and the connection closed, its close
error discarded. -/
def Node.returnConnectionToPool (n : Node) (c : connection) : Node :=
  if n.state < SHUTTING_DOWN then
    { n with available := n.available ++ [some c.notInFlight.resetBuffer] }
  else
    { n with currentNumConnections := dec16 n.currentNumConnections }

/-- Go `Node.createNewConnection`.  Modelled from the spec:
`newConnection`/`connect` (and the per-connection options including the
freshly built health check) live outside `node.go`, so the dial outcome of
the attempt is supplied by the caller.  `some c` is a successful connect —
the count is incremented and the connection returned; `none` is a failure —
the count is left unchanged and the error propagated. -/
def Node.createNewConnection (n : Node) (outcome : Option connection) :
    Option connection × Node :=
  match outcome with
  | some c => (some c, { n with currentNumConnections := inc16 n.currentNumConnections })
  | none => (none, n)

/-- The warm-fill loop of `Node.Start`:
`for i = 0; i < minConnections; i++` attempt a new connection and, on
success, return it to the pool; a failed attempt is skipped silently.
`dial i` is the outcome of the `i`-th attempt and `k` the number of
remaining iterations. -/
def Node.startFill (dial : Nat → Option connection) (i : Nat) :
    Nat → Node → Node
  | 0, n => n
  | k + 1, n =>
    match n.createNewConnection (dial i) with
    | (some c, n1) => Node.startFill dial (i + 1) k (n1.returnConnectionToPool c)
    | (none, n1) => Node.startFill dial (i + 1) k n1

/-- Go `Node.Start`: guard on `CREATED`, run the warm-fill loop, then set
the state to `RUNNING` unconditionally. -/
def Node.Start (n : Node) (dial : Nat → Option connection) :
    Option String × Node :=
  match n.stateCheck [CREATED] with
  | some e => (some e, n)
  | none => (none, (Node.startFill dial 0 n.minConnections n).setState RUNNING)

/-- Go `Node.Execute`: guard on `RUNNING`/`HEALTH_CHECKING`, re-check
`state == RUNNING`, pop a connection, run the command.  Exactly as in the
source, a popped connection is never returned to the pool. -/
def Node.Execute (n : Node) (cmd : Command) : Bool × Option String × Node :=
  match n.stateCheck [RUNNING, HEALTH_CHECKING] with
  | some e => (false, some e, n)
  | none =>
    if n.state = RUNNING then
      match n.getAvailableConnection with
      | (none, n1) => (false, none, n1)
      | (some c, n1) =>
        match c.execute cmd with
        | some e => (false, some e, n1)
        | none => (true, none, n1)
    else (false, none, n)

/-- The `for i, conn := range n.available` loop of `Node.shutdown`: every
slot is nilled in place, the count decremented once per slot, and `err` is
overwritten by each `conn.close()` in turn, so only the last close's result
survives the loop. -/
def drainLoop :
    List (Option connection) → Nat → Option String →
      List (Option connection) × Nat × Option String
  | [], cnt, err => ([], cnt, err)
  | c :: rest, cnt, _err =>
    let r := drainLoop rest (dec16 cnt) (closeConnPtr c)
    (none :: r.1, r.2.1, r.2.2)

/-- Go `Node.shutdown`: drain the pool, then — after the whole loop — check
the surviving `err`; a non-nil `err` sets `ERROR`, otherwise a zero count
sets `SHUTDOWN`, and a non-zero count hits the `panic` ("Connections still
in use"), modelled as the `none` result. -/
def Node.shutdown (n : Node) : Option (Option String × Node) :=
  let r := drainLoop n.available n.currentNumConnections none
  let n1 := { n with available := r.1, currentNumConnections := r.2.1 }
  match r.2.2 with
  | some e => some (some e, n1.setState ERROR)
  | none =>
    if n1.currentNumConnections = 0 then some (none, n1.setState SHUTDOWN)
    else none

/-- Go `Node.Stop`: guard on `CREATED`/`HEALTH_CHECKING`, set
`SHUTTING_DOWN`, then run `n.shutdown()` WITHOUT assigning its result, so a
guard-passing `Stop` always reports a nil error (the drain error is
discarded); the `panic` inside `shutdown` propagates. -/
def Node.Stop (n : Node) : Option (Option String × Node) :=
  match n.stateCheck [CREATED, HEALTH_CHECKING] with
  | some e => some (some e, n)
  | none =>
    match (n.setState SHUTTING_DOWN).shutdown with
    | none => none
    | some r => some (none, r.2)

/-! ### Helper lemmas about the embedded operations -/

theorem dec16_sub_one {c : Nat} (h1 : 1 ≤ c) (h2 : c < 65536) : dec16 c = c - 1 := by
  unfold dec16; omega

theorem inc16_add_one {c : Nat} (h : c + 1 < 65536) : inc16 c = c + 1 := by
  unfold inc16; omega

theorem stateCheck_none_iff (n : Node) (allowed : List Nat) :
    n.stateCheck allowed = none ↔ n.state ∈ allowed := by
  unfold Node.stateCheck
  split <;> simp_all

/-- Draining a pool whose entries are all live connections that close
cleanly: every slot is nilled, the count drops by the length, and no error
survives the loop. -/
theorem drainLoop_all_ok :
    ∀ (l : List (Option connection)) (cnt : Nat),
      (∀ x ∈ l, ∃ c, x = some c ∧ c.closeResult = none) →
      l.length ≤ cnt → cnt < 65536 →
      drainLoop l cnt none = (List.replicate l.length none, cnt - l.length, none) := by
  intro l
  induction l with
  | nil => intro cnt _ _ _; simp [drainLoop]
  | cons x rest ih =>
    intro cnt hall hle hlt
    obtain ⟨c, rfl, hc⟩ := hall x (List.mem_cons_self x rest)
    have hle' : rest.length + 1 ≤ cnt := by simpa using hle
    have hd : dec16 cnt = cnt - 1 := dec16_sub_one (by omega) hlt
    have ihres := ih (cnt - 1)
      (fun y hy => hall y (List.mem_cons_of_mem _ hy)) (by omega) (by omega)
    simp only [drainLoop, closeConnPtr, connection.close, hc, hd, ihres,
      List.length_cons, List.replicate_succ, Prod.mk.injEq, true_and, and_true]
    omega

/-- Draining a pool of live connections whose LAST close fails: the whole
pool is still processed (nilled and decremented), and the error that
survives the loop is exactly the last connection's close error. -/
theorem drainLoop_last :
    ∀ (l : List (Option connection)) (cl : connection) (cnt : Nat) (e0 : Option String),
      (∀ x ∈ l, ∃ c, x = some c) → l.length + 1 ≤ cnt → cnt < 65536 →
      drainLoop (l ++ [some cl]) cnt e0 =
        (List.replicate (l.length + 1) none, cnt - (l.length + 1), cl.closeResult) := by
  intro l
  induction l with
  | nil =>
    intro cl cnt e0 _ hle hlt
    have hd : dec16 cnt = cnt - 1 := dec16_sub_one (by omega) hlt
    simp [drainLoop, closeConnPtr, connection.close, hd]
  | cons x rest ih =>
    intro cl cnt e0 hall hle hlt
    obtain ⟨c, rfl⟩ := hall x (List.mem_cons_self x rest)
    have hle' : rest.length + 1 + 1 ≤ cnt := by simpa using hle
    have hd : dec16 cnt = cnt - 1 := dec16_sub_one (by omega) hlt
    have ihres := ih cl (cnt - 1) c.closeResult
      (fun y hy => hall y (List.mem_cons_of_mem _ hy)) (by omega) (by omega)
    rw [List.cons_append]
    simp only [drainLoop, closeConnPtr, connection.close, hd, ihres,
      List.length_cons, List.replicate_succ, Prod.mk.injEq, true_and, and_true]
    omega

/-- The warm-fill loop with every dial succeeding: each attempt appends one
freshly reset connection behind the existing entries (behind the nil
placeholders from `NewNode` in particular), increments the count once, and
leaves the state untouched. -/
theorem startFill_all_ok (dial : Nat → Option connection)
    (hdial : ∀ i, ∃ c, dial i = some c) :
    ∀ (k i : Nat) (n : Node), n.state < SHUTTING_DOWN →
      n.currentNumConnections + k < 65536 →
      ∃ w : List (Option connection),
        (Node.startFill dial i k n).available = n.available ++ w ∧
        (Node.startFill dial i k n).currentNumConnections =
          n.currentNumConnections + k ∧
        (Node.startFill dial i k n).state = n.state ∧
        w.length = k ∧ (∀ x ∈ w, ∃ c, x = some c) := by
  intro k
  induction k with
  | zero =>
    intro i n _ _
    refine ⟨[], ?_, ?_, ?_, rfl, by simp⟩ <;> simp [Node.startFill]
  | succ k ih =>
    intro i n hst hcnt
    obtain ⟨c, hc⟩ := hdial i
    have hinc : inc16 n.currentNumConnections = n.currentNumConnections + 1 :=
      inc16_add_one (by omega)
    have hstep : Node.startFill dial i (k + 1) n =
        Node.startFill dial (i + 1) k
          { n with available := n.available ++ [some c.notInFlight.resetBuffer],
                   currentNumConnections := n.currentNumConnections + 1 } := by
      simp [Node.startFill, Node.createNewConnection, hc,
        Node.returnConnectionToPool, hst, hinc]
    obtain ⟨w', h1, h2, h3, h4, h5⟩ := ih (i + 1)
      { n with available := n.available ++ [some c.notInFlight.resetBuffer],
               currentNumConnections := n.currentNumConnections + 1 }
      hst (by show n.currentNumConnections + 1 + k < 65536; omega)
    refine ⟨some c.notInFlight.resetBuffer :: w', ?_, ?_, ?_, ?_, ?_⟩
    · rw [hstep, h1]; simp
    · rw [hstep, h2]; show n.currentNumConnections + 1 + k = _; omega
    · rw [hstep, h3]
    · simp [h4]
    · intro x hx
      rcases List.mem_cons.mp hx with h | h
      · exact ⟨_, h⟩
      · exact h5 x h

/-! ### Concrete fixtures used by the claim theorems -/

/-- A live connection whose `execute` and `close` both succeed. -/
def okConn : connection :=
  { inFlight := true, bufferClean := false,
    execResult := fun _ => none, closeResult := none }

/-- A connection whose `close` fails. -/
def badCloseConn : connection :=
  { inFlight := true, bufferClean := false,
    execResult := fun _ => none, closeResult := some "close failed" }

/-- A resolver that accepts every address (successful `net.ResolveTCPAddr`). -/
def resolveId : String → Option String := fun s => some s

/-- Options with an explicit minimum, all other fields non-zero so no
default substitution fires. -/
def mkOpts (minC : Nat) : NodeOptions :=
  { RemoteAddress := "a", MinConnections := minC, MaxConnections := 4,
    IdleTimeout := 1, ConnectTimeout := 1, RequestTimeout := 1,
    HealthCheckBuilder := none }

/-- A `Node` in a chosen state with a chosen pool, for evaluating single
operations. -/
def mkTestNode (st : Nat) (avail : List (Option connection)) (cnt : Nat) : Node :=
  { addr := "t", minConnections := 1, maxConnections := 4, idleTimeout := 1,
    connectTimeout := 1, requestTimeout := 1, healthCheckBuilder := none,
    available := avail, currentNumConnections := cnt, state := st }

def pingCmd : Command := { name := "ping" }

/-! ### The claims -/

/-- C1: the claim states `currentConnectionCount ≥ |availableConnections|`
at every reachable point, in particular immediately after `NewNode`
returns.  The code violates it right there: `make([]*connection,
MinConnections)` builds `available` with LENGTH `MinConnections`, every
entry nil, while `currentConnectionCount` is `0`.  This theorem evaluates
`NewNode` at the failing input `MinConnections = 1` (resolution
succeeding): the count is `0`, the pool length `1`, and `0 ≥ 1` is false. -/
theorem c1_newnode_violates_count_invariant :
    (NewNode resolveId (some (mkOpts 1))).map
        (fun n => (n.currentNumConnections, n.available.length)) =
      some (0, 1) ∧ ¬ (0 : Nat) ≥ 1 :=
  ⟨rfl, by decide⟩

/-- C2: the claim states that after a successful `Start` the pool length is
at most `minConnections`.  The code violates it whenever a warm-fill dial
succeeds: the new connections are appended BEHIND the `minConnections` nil
placeholders `NewNode` created, so the length is `minConnections` plus the
number of successes.  Evaluated at `MinConnections = 1` with the dial
succeeding: `Start` returns a nil error and state `RUNNING` (that much of
the claim holds), but the pool length is `2 > 1`. -/
theorem c2_start_overfills_pool :
    (NewNode resolveId (some (mkOpts 1))).map (fun n0 =>
        ((n0.Start (fun _ => some okConn)).1,
         (n0.Start (fun _ => some okConn)).2.state,
         (n0.Start (fun _ => some okConn)).2.available.length)) =
      some (none, RUNNING, 2) ∧ ¬ (2 : Nat) ≤ 1 :=
  ⟨rfl, by decide⟩

def c3Node : Node := mkTestNode CREATED [some okConn] 1

def c3CexNode : Node := mkTestNode CREATED [some okConn] 1

/-- C3 (amended): when `Stop` passes its guard and runs the drain with zero
outstanding checkouts (count equals pool length, every entry a live
connection) and every close succeeding, the final state is `SHUTDOWN` and
the count is `0` — but `availableConnections` is NOT emptied: every slot is
nilled in place and the slice keeps its pre-drain length. -/
theorem c3_stop_clean_drain (n : Node)
    (hst : n.state = CREATED ∨ n.state = HEALTH_CHECKING)
    (hall : ∀ x ∈ n.available, ∃ c, x = some c ∧ c.closeResult = none)
    (hcnt : n.currentNumConnections = n.available.length)
    (hlt : n.currentNumConnections < 65536) :
    ∃ nF, n.Stop = some (none, nF) ∧ nF.state = SHUTDOWN ∧
      nF.currentNumConnections = 0 ∧
      nF.available = List.replicate n.available.length none := by
  have hg : n.stateCheck [CREATED, HEALTH_CHECKING] = none :=
    (stateCheck_none_iff n _).mpr (by rcases hst with h | h <;> simp [h])
  have hd := drainLoop_all_ok n.available n.currentNumConnections hall (by omega) hlt
  have hz : n.currentNumConnections - n.available.length = 0 := by omega
  refine ⟨{ n with available := List.replicate n.available.length none, currentNumConnections := 0, state := SHUTDOWN }, ?_, rfl, rfl, rfl⟩
  simp [Node.Stop, hg, Node.shutdown, Node.setState, hd, hz]

/-- C3 witness: the hypotheses of `c3_stop_clean_drain` hold and its
conclusion evaluates at a concrete one-connection node. -/
theorem c3_stop_clean_drain_witness :
    (c3Node.state = CREATED ∨ c3Node.state = HEALTH_CHECKING) ∧
    (∀ x ∈ c3Node.available, ∃ c, x = some c ∧ c.closeResult = none) ∧
    c3Node.currentNumConnections = c3Node.available.length ∧
    c3Node.currentNumConnections < 65536 ∧
    (∃ nF, c3Node.Stop = some (none, nF) ∧ nF.state = SHUTDOWN ∧
      nF.currentNumConnections = 0 ∧
      nF.available = List.replicate c3Node.available.length none) := by
  have hall : ∀ x ∈ c3Node.available, ∃ c, x = some c ∧ c.closeResult = none := by
    intro x hx
    simp [c3Node, mkTestNode] at hx
    subst hx
    exact ⟨okConn, rfl, rfl⟩
  exact ⟨Or.inl rfl, hall, rfl, by decide,
    c3_stop_clean_drain c3Node (Or.inl rfl) hall rfl (by decide)⟩

/-- C3 counterexample: on a node with one cleanly closing connection and no
outstanding checkout, `Stop` reaches `SHUTDOWN` with count `0` as the claim
says, but `availableConnections` still has length `1` (a nil slot), so it
is not empty as the claim requires. -/
theorem c3_pool_not_emptied_cex :
    (c3CexNode.Stop).map
        (fun p => (p.1, p.2.state, p.2.currentNumConnections, p.2.available.length)) =
      some ((none : Option String), SHUTDOWN, 0, 1) ∧ (1 : Nat) ≠ 0 :=
  ⟨rfl, by decide⟩

def c4Node : Node := mkTestNode CREATED [some okConn, some badCloseConn] 2

def c4CexNode : Node := mkTestNode CREATED [some badCloseConn, some okConn] 2

/-- C4 (amended): a close failure does not abort the drain.  Every idle
connection is still processed — nilled and the count decremented — and the
`err` variable holds only the most recent close result, so the Node goes to
`ERROR` exactly when the LAST close fails, with `shutdown` returning that
last error; `Stop` then discards it and returns nil. -/
theorem c4_drain_processes_all_keeps_last_error (n : Node)
    (cs : List (Option connection)) (cl : connection) (e : String)
    (hst : n.state = CREATED ∨ n.state = HEALTH_CHECKING)
    (hav : n.available = cs ++ [some cl])
    (hcs : ∀ x ∈ cs, ∃ c, x = some c)
    (hcl : cl.closeResult = some e)
    (hcnt : n.currentNumConnections = n.available.length)
    (hlt : n.currentNumConnections < 65536) :
    ∃ nF, (n.setState SHUTTING_DOWN).shutdown = some (some e, nF) ∧
      n.Stop = some (none, nF) ∧ nF.state = ERROR ∧
      nF.currentNumConnections = 0 ∧
      nF.available = List.replicate n.available.length none := by
  have hg : n.stateCheck [CREATED, HEALTH_CHECKING] = none :=
    (stateCheck_none_iff n _).mpr (by rcases hst with h | h <;> simp [h])
  have hlen : n.available.length = cs.length + 1 := by rw [hav]; simp
  have hd := drainLoop_last cs cl n.currentNumConnections none hcs (by omega) hlt
  have hz : n.currentNumConnections - (cs.length + 1) = 0 := by omega
  refine ⟨{ n with available := List.replicate n.available.length none, currentNumConnections := 0, state := ERROR }, ?_, ?_, rfl, rfl, rfl⟩
  · simp [Node.shutdown, Node.setState, hav, hd, hcl, hz, hlen]
  · simp [Node.Stop, hg, Node.shutdown, Node.setState, hav, hd, hcl, hz, hlen]

/-- C4 witness: the hypotheses of `c4_drain_processes_all_keeps_last_error`
hold and its conclusion evaluates at a two-connection node whose last
connection fails to close. -/
theorem c4_drain_processes_all_keeps_last_error_witness :
    (c4Node.state = CREATED ∨ c4Node.state = HEALTH_CHECKING) ∧
    c4Node.available = [some okConn] ++ [some badCloseConn] ∧
    (∀ x ∈ [(some okConn : Option connection)], ∃ c, x = some c) ∧
    badCloseConn.closeResult = some "close failed" ∧
    c4Node.currentNumConnections = c4Node.available.length ∧
    c4Node.currentNumConnections < 65536 ∧
    (∃ nF, (c4Node.setState SHUTTING_DOWN).shutdown = some (some "close failed", nF) ∧
      c4Node.Stop = some (none, nF) ∧ nF.state = ERROR ∧
      nF.currentNumConnections = 0 ∧
      nF.available = List.replicate c4Node.available.length none) := by
  have hcs : ∀ x ∈ [(some okConn : Option connection)], ∃ c, x = some c := by
    intro x hx
    simp at hx
    subst hx
    exact ⟨okConn, rfl⟩
  exact ⟨Or.inl rfl, rfl, hcs, rfl, rfl, by decide,
    c4_drain_processes_all_keeps_last_error c4Node [some okConn] badCloseConn
      "close failed" (Or.inl rfl) rfl hcs rfl rfl (by decide)⟩

/-- C4 counterexample: draining a pool whose FIRST connection fails to
close while the second closes cleanly.  The claim as stated requires the
drain to stop at the failure, reach `ERROR` and surface the first error;
the code instead processes both connections (count reaches `0`), ends in
`SHUTDOWN`, and `Stop` reports no error at all. -/
theorem c4_first_error_lost_cex :
    (c4CexNode.Stop).map (fun p => (p.1, p.2.state, p.2.currentNumConnections)) =
      some ((none : Option String), SHUTDOWN, 0) ∧ SHUTDOWN ≠ ERROR :=
  ⟨rfl, by decide⟩

/-- C5 (amended): a returned connection is reset and appended to the idle
pool (count unchanged) exactly when the state's numeric value is below
`SHUTTING_DOWN`, and is dropped with the count decremented (closed, error
discarded) exactly when the value is `SHUTTING_DOWN` or above.  Because
`ERROR` has the LOWEST numeric value, a connection returned in state
`ERROR` is pooled, not closed — contrary to the claim's reading of `ERROR`
as a post-draining state. -/
theorem c5_return_to_pool_branches (n : Node) (c : connection) :
    (((n.returnConnectionToPool c).available =
        n.available ++ [some c.notInFlight.resetBuffer] ∧
      (n.returnConnectionToPool c).currentNumConnections =
        n.currentNumConnections) ↔ n.state < SHUTTING_DOWN) ∧
    (((n.returnConnectionToPool c).available = n.available ∧
      (n.returnConnectionToPool c).currentNumConnections =
        dec16 n.currentNumConnections) ↔ SHUTTING_DOWN ≤ n.state) := by
  unfold Node.returnConnectionToPool
  by_cases h : n.state < SHUTTING_DOWN
  · rw [if_pos h]
    constructor
    · simp [h]
    · constructor
      · rintro ⟨h1, -⟩
        exfalso
        have := congrArg List.length h1
        simp at this
      · intro hge
        exact absurd h (Nat.not_lt.mpr hge)
  · rw [if_neg h]
    have hge : SHUTTING_DOWN ≤ n.state := Nat.le_of_not_lt h
    constructor
    · constructor
      · rintro ⟨h1, -⟩
        exfalso
        have := congrArg List.length h1
        simp at this
      · intro hlt
        exact absurd hlt h
    · simp [hge]

/-- C5 counterexample: returning a connection to a node in state `ERROR`
(count `5`).  The claim says the connection must be closed immediately with
the count decremented; the code instead appends it to the pool and leaves
the count at `5`. -/
theorem c5_error_state_pools_cex :
    ((mkTestNode ERROR [] 5).returnConnectionToPool okConn).currentNumConnections = 5 ∧
    ((mkTestNode ERROR [] 5).returnConnectionToPool okConn).available.length = 1 ∧
    (5 : Nat) ≠ dec16 5 :=
  ⟨rfl, rfl, by decide⟩

def c6Node : Node := mkTestNode RUNNING [some okConn] 1

/-- C6: the claim says every connection `Execute` checks out is checked
back in before `Execute` returns, restoring the pool length and the count.
The code never returns the connection: evaluated on a RUNNING node with one
live connection and a succeeding command, `Execute` reports success but the
pool length has dropped from `1` to `0` while the count is still `1` — the
connection is leaked. -/
theorem c6_execute_leaks_connection :
    (c6Node.Execute pingCmd).1 = true ∧
    (c6Node.Execute pingCmd).2.1 = none ∧
    (c6Node.Execute pingCmd).2.2.available.length = 0 ∧
    (c6Node.Execute pingCmd).2.2.currentNumConnections = 1 ∧
    c6Node.available.length = 1 :=
  ⟨rfl, rfl, rfl, rfl, rfl⟩

def c7Node : Node := mkTestNode RUNNING [some okConn] 1

/-- C7: whenever `Execute` reports `executed = true`, the returned error is
nil and the idle pool was non-empty at call time — for every node state and
every command. -/
theorem c7_executed_true_is_clean (n : Node) (cmd : Command)
    (h : (n.Execute cmd).1 = true) :
    (n.Execute cmd).2.1 = none ∧ n.available ≠ [] := by
  cases hsc : n.stateCheck [RUNNING, HEALTH_CHECKING] with
  | some e => simp [Node.Execute, hsc] at h
  | none =>
    by_cases hr : n.state = RUNNING
    · cases hav : n.available with
      | nil => simp [Node.Execute, hsc, hr, Node.getAvailableConnection, hav] at h
      | cons x rest =>
        cases x with
        | none => simp [Node.Execute, hsc, hr, Node.getAvailableConnection, hav] at h
        | some c =>
          cases hex : c.execResult cmd with
          | some e =>
            simp [Node.Execute, hsc, hr, Node.getAvailableConnection, hav,
              connection.execute, hex] at h
          | none =>
            refine ⟨?_, by simp [hav]⟩
            simp [Node.Execute, hsc, hr, Node.getAvailableConnection, hav,
              connection.execute, hex]
    · simp [Node.Execute, hsc, hr] at h

/-- C7 witness: `Execute` on a RUNNING node with one live connection and a
succeeding command reports `executed = true`, and the theorem's conclusion
holds there. -/
theorem c7_executed_true_is_clean_witness :
    (c7Node.Execute pingCmd).1 = true ∧
    ((c7Node.Execute pingCmd).2.1 = none ∧ c7Node.available ≠ []) :=
  ⟨rfl, c7_executed_true_is_clean c7Node pingCmd rfl⟩

/-- C8: `Execute`'s result discriminates benign non-execution from failure.
It returns `(false, nil)` exactly when the initial guard passes but either
the state is not `RUNNING` or the checkout yields no connection, and it
returns `(false, non-nil)` exactly when the guard fails or the checked-out
connection's execution of the command errs. -/
theorem c8_result_discrimination (n : Node) (cmd : Command) :
    (((n.Execute cmd).1 = false ∧ (n.Execute cmd).2.1 = none) ↔
      (n.stateCheck [RUNNING, HEALTH_CHECKING] = none ∧
        (¬ n.state = RUNNING ∨ (n.getAvailableConnection).1 = none))) ∧
    (((n.Execute cmd).1 = false ∧ ¬ (n.Execute cmd).2.1 = none) ↔
      (¬ n.stateCheck [RUNNING, HEALTH_CHECKING] = none ∨
        (n.state = RUNNING ∧ ∃ c, (n.getAvailableConnection).1 = some c ∧
          ¬ c.execute cmd = none))) := by
  cases hsc : n.stateCheck [RUNNING, HEALTH_CHECKING] with
  | some e => constructor <;> simp [Node.Execute, hsc]
  | none =>
    by_cases hr : n.state = RUNNING
    · cases hav : n.available with
      | nil =>
        constructor <;>
          simp [Node.Execute, hsc, hr, Node.getAvailableConnection, hav]
      | cons x rest =>
        cases x with
        | none =>
          constructor <;>
            simp [Node.Execute, hsc, hr, Node.getAvailableConnection, hav]
        | some c =>
          cases hex : c.execResult cmd with
          | some e =>
            constructor <;>
              simp [Node.Execute, hsc, hr, Node.getAvailableConnection, hav,
                connection.execute, hex]
          | none =>
            constructor <;>
              simp [Node.Execute, hsc, hr, Node.getAvailableConnection, hav,
                connection.execute, hex]
    · constructor <;> simp [Node.Execute, hsc, hr]

def c9WNode : Node := mkTestNode CREATED [] 0

def c9CexNode : Node := mkTestNode RUNNING [] 0

/-- C9 (amended): `Stop` passes its guard exactly when the state is
`CREATED` or `HEALTH_CHECKING` — in every other state, `RUNNING` included,
it returns an illegal-state error and leaves the node untouched; when the
guard passes it sets `SHUTTING_DOWN` and performs the shutdown drain, whose
error it discards. -/
theorem c9_stop_guard (n : Node) :
    ((∃ e, n.Stop = some (some e, n)) ↔
      ¬ (n.state = CREATED ∨ n.state = HEALTH_CHECKING)) ∧
    ((n.state = CREATED ∨ n.state = HEALTH_CHECKING) →
      n.Stop = ((n.setState SHUTTING_DOWN).shutdown).map (fun r => (none, r.2))) := by
  cases hsc : n.stateCheck [CREATED, HEALTH_CHECKING] with
  | some e =>
    have hmem : ¬ (n.state = CREATED ∨ n.state = HEALTH_CHECKING) := by
      intro hor
      have hnone : n.stateCheck [CREATED, HEALTH_CHECKING] = none :=
        (stateCheck_none_iff n _).mpr (by rcases hor with h | h <;> simp [h])
      rw [hsc] at hnone
      exact Option.noConfusion hnone
    constructor
    · constructor
      · intro _
        exact hmem
      · intro _
        exact ⟨e, by simp [Node.Stop, hsc]⟩
    · intro hor
      exact absurd hor hmem
  | none =>
    have hor : n.state = CREATED ∨ n.state = HEALTH_CHECKING := by
      have := (stateCheck_none_iff n _).mp hsc
      simpa using this
    constructor
    · constructor
      · rintro ⟨e, he⟩
        exfalso
        unfold Node.Stop at he
        rw [hsc] at he
        cases hsd : (n.setState SHUTTING_DOWN).shutdown with
        | none => rw [hsd] at he; exact Option.noConfusion he
        | some r => rw [hsd] at he; simp at he
      · intro hcon
        exact absurd hor hcon
    · intro _
      unfold Node.Stop
      rw [hsc]
      cases hsd : (n.setState SHUTTING_DOWN).shutdown with
      | none => rfl
      | some r => rfl

/-- C9 witness: on a `CREATED` node the guard passes and `Stop` performs
the drain. -/
theorem c9_stop_guard_witness :
    c9WNode.Stop =
      ((c9WNode.setState SHUTTING_DOWN).shutdown).map (fun r => ((none : Option String), r.2)) :=
  (c9_stop_guard c9WNode).2 (Or.inl rfl)

/-- C9 counterexample: `Stop` on a RUNNING node.  The claim says this must
not return an illegal-state error; the code returns one (`isSome = true`)
and performs no drain — the node stays `RUNNING`. -/
theorem c9_running_stop_rejected_cex :
    (c9CexNode.Stop).map (fun p => (p.1.isSome, p.2.state)) = some (true, RUNNING) :=
  rfl

/-- C10: for every node `NewNode` returns, `available` already holds
`MinConnections` nil entries while the count is `0`; `Start` appends the
warm-fill connections behind them, so the first `MinConnections` slots of
the queue are nil (each of the first `MinConnections` checkouts pops a nil
entry) and `Execute` returns `(false, nil)` even though a live connection
is pooled behind the placeholders. -/
theorem c10_nil_placeholders_head_the_queue (opts : NodeOptions)
    (resolve : String → Option String) (addr : String)
    (dial : Nat → Option connection)
    (hra : ¬ opts.RemoteAddress = "")
    (hres : resolve opts.RemoteAddress = some addr)
    (hm0 : ¬ opts.MinConnections = 0)
    (hmlt : opts.MinConnections < 65536)
    (hdial : ∀ i, ∃ c, dial i = some c) :
    ∃ n0 : Node, NewNode resolve (some opts) = some n0 ∧
      n0.available = List.replicate opts.MinConnections none ∧
      n0.currentNumConnections = 0 ∧
      (n0.Start dial).1 = none ∧
      (n0.Start dial).2.state = RUNNING ∧
      (n0.Start dial).2.available.take opts.MinConnections =
        List.replicate opts.MinConnections none ∧
      (∃ c, some c ∈ (n0.Start dial).2.available) ∧
      (∀ cmd : Command, ((n0.Start dial).2.Execute cmd).1 = false ∧
        ((n0.Start dial).2.Execute cmd).2.1 = none) := by
  have hnew : ∃ n0, NewNode resolve (some opts) = some n0 ∧
      n0.available = List.replicate opts.MinConnections none ∧
      n0.currentNumConnections = 0 ∧ n0.minConnections = opts.MinConnections ∧
      n0.state = CREATED := by
    unfold NewNode
    simp only [Option.getD_some]
    have h1 : (applyOptionDefaults opts).RemoteAddress = opts.RemoteAddress := by
      simp [applyOptionDefaults, hra]
    have h2 : (applyOptionDefaults opts).MinConnections = opts.MinConnections := by
      simp [applyOptionDefaults, hm0]
    rw [h1, hres]
    exact ⟨_, rfl, by simp [h2], rfl, by simp [h2], rfl⟩
  obtain ⟨n0, hnew0, hav0, hcnt0, hmin0, hst0⟩ := hnew
  refine ⟨n0, hnew0, hav0, hcnt0, ?_⟩
  have hg1 : n0.stateCheck [CREATED] = none :=
    (stateCheck_none_iff _ _).mpr (by simp [hst0])
  obtain ⟨w, hw1, hw2, hw3, hw4, hw5⟩ :=
    startFill_all_ok dial hdial n0.minConnections 0 n0
      (by rw [hst0]; decide) (by rw [hcnt0, hmin0]; omega)
  have hstart : n0.Start dial =
      (none, (Node.startFill dial 0 n0.minConnections n0).setState RUNNING) := by
    unfold Node.Start
    rw [hg1]
  have h1 : (n0.Start dial).1 = none := by rw [hstart]
  have hs2 : (n0.Start dial).2 =
      (Node.startFill dial 0 n0.minConnections n0).setState RUNNING := by rw [hstart]
  have hstate1 : (n0.Start dial).2.state = RUNNING := by
    rw [hs2]; simp [Node.setState]
  have havail1 : (n0.Start dial).2.available =
      List.replicate opts.MinConnections none ++ w := by
    rw [hs2]
    simp only [Node.setState]
    rw [hw1, hav0]
  obtain ⟨m', hm'⟩ : ∃ m', opts.MinConnections = m' + 1 :=
    ⟨opts.MinConnections - 1, by omega⟩
  have hcons : (n0.Start dial).2.available = none :: (List.replicate m' none ++ w) := by
    rw [havail1, hm']
    simp [List.replicate_succ]
  have hwlen : w.length = opts.MinConnections := by rw [hw4, hmin0]
  have hwne : w ≠ [] := by
    intro hnil
    rw [hnil] at hwlen
    simp at hwlen
    exact hm0 hwlen.symm
  refine ⟨h1, hstate1, ?_, ?_, ?_⟩
  · rw [havail1]
    exact List.take_left' (by simp)
  · obtain ⟨x, hx⟩ := List.exists_mem_of_ne_nil w hwne
    obtain ⟨c, hc⟩ := hw5 x hx
    exact ⟨c, by rw [havail1]; exact List.mem_append_right _ (hc ▸ hx)⟩
  · intro cmd
    have hg2 : (n0.Start dial).2.stateCheck [RUNNING, HEALTH_CHECKING] = none :=
      (stateCheck_none_iff _ _).mpr (by simp [hstate1])
    constructor <;>
      simp [Node.Execute, hg2, hstate1, Node.getAvailableConnection, hcons]

/-- C10 witness: the hypotheses of `c10_nil_placeholders_head_the_queue`
hold at `MinConnections = 2` with an always-succeeding resolver and dial,
and its conclusion evaluates there. -/
theorem c10_nil_placeholders_head_the_queue_witness :
    (¬ (mkOpts 2).RemoteAddress = "") ∧
    resolveId (mkOpts 2).RemoteAddress = some "a" ∧
    (¬ (mkOpts 2).MinConnections = 0) ∧
    (mkOpts 2).MinConnections < 65536 ∧
    (∀ i : Nat, ∃ c, (fun _ : Nat => some okConn) i = some c) ∧
    (∃ n0 : Node, NewNode resolveId (some (mkOpts 2)) = some n0 ∧
      n0.available = List.replicate (mkOpts 2).MinConnections none ∧
      n0.currentNumConnections = 0 ∧
      (n0.Start (fun _ => some okConn)).1 = none ∧
      (n0.Start (fun _ => some okConn)).2.state = RUNNING ∧
      (n0.Start (fun _ => some okConn)).2.available.take (mkOpts 2).MinConnections =
        List.replicate (mkOpts 2).MinConnections none ∧
      (∃ c, some c ∈ (n0.Start (fun _ => some okConn)).2.available) ∧
      (∀ cmd : Command,
        ((n0.Start (fun _ => some okConn)).2.Execute cmd).1 = false ∧
        ((n0.Start (fun _ => some okConn)).2.Execute cmd).2.1 = none)) :=
  ⟨by decide, rfl, by decide, by decide, fun i => ⟨okConn, rfl⟩,
    c10_nil_placeholders_head_the_queue (mkOpts 2) resolveId "a"
      (fun _ => some okConn) (by decide) rfl (by decide) (by decide)
      (fun i => ⟨okConn, rfl⟩)⟩
